import Mathlib

/-!
Shallow embedding of `image_downloader.py` (fiuderazes/image-downloader).

The program reads a list of image URLs, downloads each one concurrently,
validates the declared content type, derives a collision-free filename and
writes the body to an output directory, returning aggregate statistics.

Python strings are modelled as Lean `String`, with the handful of Python
string methods the source uses re-implemented structurally over `List Char`
so that every definition evaluates inside the kernel.  Filesystem state is
modelled by an existence predicate `String → Bool`; per-task network results
are modelled by an explicit `Response` value; side effects (writing a file,
closing a response) are recorded in an explicit effect list.
-/

/-! ## Python string primitives used by the source -/

/-- Python `str.strip()`: remove leading and trailing whitespace. -/
def pyStrip (s : String) : String :=
  String.mk (((s.data.dropWhile Char.isWhitespace).reverse.dropWhile Char.isWhitespace).reverse)

/-- Python `str.lower()` (the source only ever lowercases ASCII extensions). -/
def pyLower (s : String) : String :=
  String.mk (s.data.map Char.toLower)

/-- Python `s.split(sep)[0]` for a one-character separator, i.e. the text before
the first occurrence of `sep` (the whole string when `sep` is absent).  This is
what `content_type.split(';', 1)[0]` computes on line 71 of the source. -/
def beforeFirst (sep : Char) (s : String) : String :=
  String.mk (s.data.takeWhile (fun c => ¬ (c = sep)))

/-- Python `s.partition(sep)` for a one-character separator, keeping the parts
before and after the first occurrence; when `sep` is absent the result is
`(s, "")`, exactly as `str.partition` yields `(s, "", "")`. -/
def partitionFirst (sep : Char) (s : String) : String × String :=
  if s.data.contains sep then
    (String.mk (s.data.takeWhile (fun c => ¬ (c = sep))),
     String.mk ((s.data.dropWhile (fun c => ¬ (c = sep))).drop 1))
  else (s, "")

/-- Python `s.rsplit(sep, 1)[-1]` for a one-character separator: the text after
the last occurrence of `sep` (the whole string when `sep` is absent). -/
def afterLastSep (sep : Char) (s : String) : String :=
  String.mk ((s.data.reverse.takeWhile (fun c => ¬ (c = sep))).reverse)

/-- Python `s.rpartition(sep)` for a one-character separator, as the pair of
the parts before and after the last occurrence; when `sep` is absent the
result is `("", s)`, exactly as `str.rpartition` yields `("", "", s)`. -/
def pyRpartition (sep : Char) (s : String) : String × String :=
  if s.data.contains sep then
    (String.mk (((s.data.reverse.dropWhile (fun c => ¬ (c = sep))).drop 1).reverse),
     afterLastSep sep s)
  else ("", s)

/-- One replacement pass for Python `str.replace(pat, rep)`, with explicit fuel
so the recursion is structural; `pyReplace` supplies fuel equal to the string
length, which suffices for every non-empty pattern (the source only replaces
the non-empty patterns `"jpeg"` and `"jpg"`). -/
def replaceCharsFuel (pat rep : List Char) : Nat → List Char → List Char
  | 0, s => s
  | _ + 1, [] => []
  | fuel + 1, c :: cs =>
    if pat.isPrefixOf (c :: cs) then rep ++ replaceCharsFuel pat rep fuel ((c :: cs).drop pat.length)
    else c :: replaceCharsFuel pat rep fuel cs

/-- Python `s.replace(pat, rep)`: replace every non-overlapping occurrence,
scanning left to right. -/
def pyReplace (s pat rep : String) : String :=
  String.mk (replaceCharsFuel pat.data rep.data s.data.length s.data)

/-- Python `s.startswith(pre)`. -/
def pyStartsWith (s pre : String) : Bool :=
  pre.data.isPrefixOf s.data

/-- Python `s.endswith(suf)`. -/
def pyEndsWith (s suf : String) : Bool :=
  suf.data.isSuffixOf s.data

/-- Helper for `containsSubstring`: does `needle` occur in the haystack list? -/
def containsSubstringAux (needle : List Char) : List Char → Bool
  | [] => needle.isEmpty
  | c :: cs => needle.isPrefixOf (c :: cs) || containsSubstringAux needle cs

/-- Python `needle in hay` for strings: substring containment. -/
def containsSubstring (hay needle : String) : Bool :=
  containsSubstringAux needle.data hay.data

/-! ## POSIX path primitives used by the source (`os.path`) -/

/-- `os.path.join(a, b)` (POSIX): `b` when `b` is absolute, otherwise `a`
glued to `b` with a single separator. -/
def pathJoin (a b : String) : String :=
  if pyStartsWith b "/" then b
  else if a = "" ∨ pyEndsWith a "/" then a ++ b
  else a ++ "/" ++ b

/-- `os.path.basename(p)` (POSIX): the part after the last slash. -/
def basename (p : String) : String :=
  afterLastSep '/' p

/-- `os.path.dirname(p)` (POSIX): everything up to the last slash, with
trailing slashes stripped unless the result consists only of slashes. -/
def dirname (p : String) : String :=
  if p.data.contains '/' then
    let head := (pyRpartition '/' p).1 ++ "/"
    if head.data.all (fun c => c = '/') then head
    else String.mk ((head.data.reverse.dropWhile (fun c => c = '/')).reverse)
  else ""

/-! ## Data model -/

/-- `DownloadStats = collections.namedtuple('DownloadStats', 'success failed total')`
(line 30 of the source). -/
structure DownloadStats where
  success : Nat
  failed : Nat
  total : Nat
deriving DecidableEq, Repr

/-- Classified per-task errors.  In Python these are all exceptions raised
inside `download_image`: `requests` HTTP errors from `raise_for_status`, the
`ValueError` of line 75 for a non-image content type, the `InvalidURL` that
`requests.utils.unquote_unreserved` can raise in the filename fallback, and
the `AttributeError` hit on line 101 when the parsed content disposition has
no filename. -/
inductive DlError where
  | httpError (status : Nat) (url : String)
  | invalidImageType (content_type : String) (url : String)
  | invalidURL (msg : String)
  | attributeNone
deriving DecidableEq, Repr

/-- Errors `download_manager` itself can raise: the `ValueError` of line 42
for a bad output directory, and the `ValueError` that
`ThreadPoolExecutor.__init__` raises for a non-positive `max_workers`. -/
inductive ManagerError where
  | invalidOutputDir (out_dir : String)
  | executorValueError (msg : String)
deriving DecidableEq, Repr

/-- Observable side effects of one `download_image` call. -/
inductive Effect where
  | closedResponse
  | wroteFile (path : String)
deriving DecidableEq, Repr

/-- An HTTP response as `download_image` observes it: the requested URL, the
status code, the raw `Content-Type` header (absent ⇒ `headers.get` yields the
default `''`), and the result of the rfc6266 content-disposition parse:
`none` when `rfc6266.parse_requests_response` raises, `some none` when it
succeeds but carries no filename (`rawFilename is None`), and
`some (some f)` when it yields the unsafe filename `f`. -/
structure Response where
  url : String
  status : Nat
  contentTypeHeader : Option String
  dispositionParse : Option (Option String)
deriving DecidableEq, Repr

/-- What a successful `download_image` produces: the filename it returns
(line 87) and the path the body was streamed to (lines 80-84). -/
structure DownloadResult where
  filename : String
  written : String
deriving DecidableEq, Repr

deriving instance DecidableEq for Except

/-- Outcome of running one scheduled task, as the manager observes it via
`futures.as_completed`: the returned filename or the raised error, plus the
task's side effects. -/
structure TaskOutcome where
  result : Except DlError String
  effects : List Effect
deriving DecidableEq, Repr

/-- Everything observable about one `download_manager` call: the returned
statistics (or the raised error), the errors logged by `logger.error`
(line 59), the URLs for which a task actually ran, and the accumulated task
side effects. -/
structure ManagerResult where
  stats : Except ManagerError DownloadStats
  logged : List DlError
  attempted : List String
  effects : List Effect
deriving DecidableEq, Repr

/-- The error component of an `Except`, if any. -/
def exceptError {ε α : Type} : Except ε α → Option ε
  | Except.error e => some e
  | Except.ok _ => none

/-! ## Filename resolution (`get_filename`, lines 90-109) -/

/-- Hexadecimal digit value, as `int(h, 16)` assigns per digit. -/
def hexVal (c : Char) : Option Nat :=
  if '0' ≤ c ∧ c ≤ '9' then some (c.toNat - 48)
  else if 'a' ≤ c ∧ c ≤ 'f' then some (c.toNat - 87)
  else if 'A' ≤ c ∧ c ≤ 'F' then some (c.toNat - 55)
  else none

/-- Membership in `UNRESERVED_SET` of the external requests library:
ASCII letters, digits, and `-._~`. -/
def isUnreserved (c : Char) : Bool :=
  c.isAlpha || c.isDigit || c == '-' || c == '.' || c == '_' || c == '~'

/-- Modelled from the external requests library (`requests.utils`): one part
of the `%`-split in `unquote_unreserved`.  A part starting with two
alphanumeric characters is a candidate escape: if both are hex digits the
byte is decoded and kept only when unreserved, otherwise `InvalidURL` is
raised; any other part keeps its leading percent sign. -/
def processPercentPart (p : List Char) : Except DlError (List Char) :=
  match p with
  | c1 :: c2 :: rest =>
    if c1.isAlphanum ∧ c2.isAlphanum then
      match hexVal c1, hexVal c2 with
      | some a, some b =>
        let c := Char.ofNat (16 * a + b)
        if isUnreserved c then Except.ok (c :: rest) else Except.ok ('%' :: p)
      | _, _ => Except.error (DlError.invalidURL "Invalid percent-escape sequence")
    else Except.ok ('%' :: p)
  | _ => Except.ok ('%' :: p)

/-- Python `s.split('%')` over character lists. -/
def splitChars (sep : Char) : List Char → List (List Char)
  | [] => [[]]
  | c :: cs =>
    let r := splitChars sep cs
    if c = sep then [] :: r
    else
      match r with
      | [] => [[c]]
      | x :: xs => (c :: x) :: xs

/-- Process every `%`-part in order, propagating the first failure. -/
def joinPercentParts : List (List Char) → Except DlError (List Char)
  | [] => Except.ok []
  | p :: ps =>
    match processPercentPart p, joinPercentParts ps with
    | Except.error e, _ => Except.error e
    | _, Except.error e => Except.error e
    | Except.ok c, Except.ok cs => Except.ok (c ++ cs)

/-- Modelled from the external requests library:
`requests.utils.unquote_unreserved(uri)` percent-decodes exactly the escapes
of unreserved characters. -/
def unquote_unreserved (uri : String) : Except DlError String :=
  match splitChars '%' uri.data with
  | [] => Except.ok uri
  | p0 :: rest =>
    match joinPercentParts rest with
    | Except.error e => Except.error e
    | Except.ok cs => Except.ok (String.mk (p0 ++ cs))

/-- Modelled from the external rfc6266 library:
`ContentDisposition.filename_sanitized(extension)` takes the unsafe filename
(defaulting to `"file"` when absent), strips any directory part and leading
dots, falls back to `"file"` when nothing remains, and appends
`"." ++ extension` unless the name already ends with it.  Drive-letter
handling of `ntpath.basename` is omitted; no input in this development
contains a drive letter. -/
def filename_sanitized (rawFilename : Option String) (extension : String) : String :=
  let fname := rawFilename.getD "file"
  let fname := afterLastSep '/' fname
  let fname := String.mk (fname.data.dropWhile (fun c => c = '.'))
  let fname := if fname = "" then "file" else fname
  if pyEndsWith fname ("." ++ extension) then fname else fname ++ "." ++ extension

/-- `get_filename(response, expected_extension)` (lines 90-109): on a failed
content-disposition parse, fall back to the percent-decoded last URL segment
(or `"file"`) plus the expected extension; on a successful parse, keep the
parsed extension whenever the expected extension occurs among the parsed
extension's lowercase jpg/jpeg alias spellings, and hand the chosen extension
to `filename_sanitized`. -/
def get_filename (url : String) (dispositionParse : Option (Option String))
    (expected_extension : String) : Except DlError String :=
  match dispositionParse with
  | none =>
    match unquote_unreserved url with
    | Except.error e => Except.error e
    | Except.ok u =>
      let basename0 := afterLastSep '/' u
      Except.ok ((if basename0 = "" then "file" else basename0) ++ "." ++ expected_extension)
  | some none => Except.error DlError.attributeNone
  | some (some rawFilename) =>
    let extension := afterLastSep '.' rawFilename
    let lowerExt := pyLower extension
    let safe_aliases := [lowerExt, pyReplace lowerExt "jpeg" "jpg", pyReplace lowerExt "jpg" "jpeg"]
    let expected := if safe_aliases.contains expected_extension then extension else expected_extension
    Except.ok (filename_sanitized (some rawFilename) expected)

/-! ## Collision renaming (`rename_if_exists`, lines 112-126) -/

/-- The candidate path the loop body builds on line 120:
`path.join(dirname, '..._{i}.{ext}')` with the basename, index and extension
interpolated. -/
def renameCandidate (d b e : String) (i : Nat) : String :=
  pathJoin d (b ++ "_" ++ toString i ++ "." ++ e)

/-- The `for i in range(1, 10000)` loop of lines 119-124 over an existence
predicate `ex`: starting at index `i` with `fuel` candidates left, return the
first free candidate, or the last candidate tried when none is free (the
`for`-`else` branch only logs a warning and keeps the final `file_path`). -/
def renameGo (ex : String → Bool) (d b e : String) : Nat → Nat → String
  | i, 0 => renameCandidate d b e i
  | i, fuel + 1 =>
    let fp := renameCandidate d b e i
    if ex fp = true then
      if fuel = 0 then fp else renameGo ex d b e (i + 1) fuel
    else fp

/-- `rename_if_exists(file_path)` (lines 112-126) over an existence predicate:
a free path is returned unchanged; otherwise the basename is split at its
last dot and numeric suffixes `_1` .. `_9999` are tried in order. -/
def rename_if_exists (ex : String → Bool) (file_path : String) : String :=
  if ex file_path = false then file_path
  else
    renameGo ex (dirname file_path)
      (pyRpartition '.' (basename file_path)).1
      (pyRpartition '.' (basename file_path)).2 1 9999

/-! ## `download_image` (lines 64-87) -/

/-- Characters the external pathvalidate library treats as invalid in a
filename.  Modelled from pathvalidate: `sanitize_filename` replaces each of
these (and ASCII control characters) with the replacement text. -/
def INVALID_FILENAME_CHARS : List Char := ['\\', '/', ':', '*', '?', '"', '<', '>', '|']

/-- Modelled from the external pathvalidate library:
`pathvalidate.sanitize_filename(filename, replacement_text)` with each
invalid or control character replaced by the replacement text. -/
def sanitize_filename (filename : String) (replacement_text : String) : String :=
  String.mk ((filename.data.map (fun c =>
    if INVALID_FILENAME_CHARS.contains c ∨ c.toNat < 32 then replacement_text.data
    else [c])).flatten)

/-- The declared content type of line 71:
`response.headers.get('content-type', '').split(';', 1)[0]`. -/
def declaredContentType (r : Response) : String :=
  beforeFirst ';' (r.contentTypeHeader.getD "")

/-- `download_image(url, out_dir)` (lines 64-87) over an existence predicate
for the output directory and an explicit `Response`.  `raise_for_status`
raises for 4xx/5xx statuses; a declared content type whose primary type is
not `image` or whose subtype is empty closes the response and raises the
`ValueError` of line 75; otherwise the filename is derived, sanitized,
resolved against existing files and the body is written to the resolved
path, while the *unrenamed* filename of line 79 is returned (line 87). -/
def download_image (ex : String → Bool) (out_dir : String) (r : Response) :
    Except DlError DownloadResult × List Effect :=
  if 400 ≤ r.status ∧ r.status < 600 then
    (Except.error (DlError.httpError r.status r.url), [])
  else if (partitionFirst '/' (declaredContentType r)).1 ≠ "image" ∨
      (partitionFirst '/' (declaredContentType r)).2 = "" then
    (Except.error (DlError.invalidImageType (declaredContentType r) r.url),
     [Effect.closedResponse])
  else
    match get_filename r.url r.dispositionParse (partitionFirst '/' (declaredContentType r)).2 with
    | Except.error e => (Except.error e, [])
    | Except.ok filename0 =>
      (Except.ok
        ⟨sanitize_filename filename0 "_",
         rename_if_exists ex (pathJoin out_dir (sanitize_filename filename0 "_"))⟩,
       [Effect.wroteFile (rename_if_exists ex (pathJoin out_dir (sanitize_filename filename0 "_")))])

/-- Lowercase hexadecimal digit of a value below 16, as the `\xHH` escapes of
CPython's repr use. -/
def hexDigitChar (n : Nat) : Char :=
  if n < 10 then Char.ofNat (48 + n) else Char.ofNat (87 + n)

/-- Modelled from CPython: the escape repr applies to one character when the
surrounding quote is `q` — the backslash and the quote character are
backslash-escaped, tab, newline and carriage return become `\t`, `\n`, `\r`,
any other character below space (or DEL) becomes a lowercase `\xHH` escape,
and everything else is kept verbatim.  Non-ASCII characters are kept as-is
(CPython keeps the printable ones; no string in this development is
non-ASCII). -/
def reprEscapeChar (q c : Char) : List Char :=
  if c = '\\' then ['\\', '\\']
  else if c = q then ['\\', q]
  else if c = '\t' then ['\\', 't']
  else if c = '\n' then ['\\', 'n']
  else if c = '\r' then ['\\', 'r']
  else if c.toNat < 32 ∨ c.toNat = 127 then
    ['\\', 'x', hexDigitChar (c.toNat / 16), hexDigitChar (c.toNat % 16)]
  else [c]

/-- Modelled from CPython: repr delimits with single quotes, switching to
double quotes exactly when the string contains a single quote but no double
quote. -/
def reprQuote (s : String) : Char :=
  if s.data.contains '\x27' ∧ ¬ (s.data.contains '"') then '"' else '\x27'

/-- Modelled from CPython's repr for `str`, as `'{!r}'.format` renders the
strings in this development: the chosen quote around the escaped characters. -/
def pyRepr (s : String) : String :=
  String.mk (reprQuote s :: ((s.data.map (reprEscapeChar (reprQuote s))).flatten ++ [reprQuote s]))

/-- Characters that repr renders verbatim inside single quotes: printable
ASCII other than the backslash and the single quote. -/
def reprVerbatimChar (c : Char) : Bool :=
  decide (32 ≤ c.toNat ∧ c.toNat ≤ 126 ∧ ¬ (c = '\\') ∧ ¬ (c = '\x27'))

/-- The message of the exception each `DlError` stands for.  The
`invalidImageType` case is the format string of line 75,
`'Invalid image type \x7b!r\x7d from \x7b!r\x7d'.format(content_type, url)`;
the other messages are those of the external libraries, summarised. -/
def errorMessage : DlError → String
  | DlError.httpError status url => toString status ++ " Error for url " ++ pyRepr url
  | DlError.invalidImageType content_type url =>
    "Invalid image type " ++ pyRepr content_type ++ " from " ++ pyRepr url
  | DlError.invalidURL msg => msg
  | DlError.attributeNone => "NoneType object has no attribute rsplit"

/-! ## `get_session` (lines 129-141) -/

/-- `get_session()` (lines 129-141), with `requests.Session` instances numbered
by an allocation counter.  The source constructs `local = threading.local()`
*inside* the function body, so the freshly created object never has a
`session` attribute: the lookup `local.session` always raises
`AttributeError` and a new session is allocated on every call.  The state is
the next fresh session number; the result is the returned session's number
paired with the state after the call. -/
def get_session (nextSessionId : Nat) : Nat × Nat :=
  let localSession : Option Nat := none
  match localSession with
  | some session => (session, nextSessionId)
  | none => (nextSessionId, nextSessionId + 1)

/-! ## `download_manager` (lines 33-61) -/

/-- Modelled from the Python standard library:
`concurrent.futures.ThreadPoolExecutor.__init__` raises
`ValueError('max_workers must be greater than 0')` when an explicit
`max_workers` is not positive, and picks a default when it is `None`. -/
def threadPoolExecutorInit (max_workers : Option Int) : Except String Unit :=
  match max_workers with
  | none => Except.ok ()
  | some n => if n ≤ 0 then Except.error "max_workers must be greater than 0" else Except.ok ()

/-- The generator of line 51:
`(line.strip() for line in url_file if line.strip())`, i.e. the stripped
non-empty lines of the input. -/
def stripNonEmptyLines (lines : List String) : List String :=
  (lines.map pyStrip).filter (fun s => ¬ (s = ""))

/-- `download_manager(url_file, out_dir, max_workers)` (lines 33-61) over an
`isdir` predicate, the input's lines, and a `run` function giving each
scheduled task's outcome.  The output-directory check of lines 41-42 raises
before anything is scheduled; the executor of line 49 validates
`max_workers` before any task is submitted (the Python-2 branch of lines
45-46 is dead under Python 3); then one task per stripped non-empty line is
submitted, every completed task's exception is logged and counted, and the
statistics of line 61 are returned. -/
def download_manager (isdir : String → Bool) (out_dir : String) (lines : List String)
    (max_workers : Option Int) (run : String → TaskOutcome) : ManagerResult :=
  if isdir out_dir = false then
    ⟨Except.error (ManagerError.invalidOutputDir out_dir), [], [], []⟩
  else
    match threadPoolExecutorInit max_workers with
    | Except.error m => ⟨Except.error (ManagerError.executorValueError m), [], [], []⟩
    | Except.ok _ =>
      let urls := stripNonEmptyLines lines
      let outcomes := urls.map run
      let errs := outcomes.filterMap (fun o => exceptError o.result)
      ⟨Except.ok ⟨urls.length - errs.length, errs.length, urls.length⟩,
       errs, urls, (outcomes.map TaskOutcome.effects).flatten⟩

/-! ## Helper lemmas -/

/-- Counting the hits of a partial function equals counting the elements where
it is defined. -/
theorem length_filterMap_eq_countP {α β : Type} (f : α → Option β) (l : List α) :
    (l.filterMap f).length = l.countP (fun a => (f a).isSome) := by
  induction l with
  | nil => rfl
  | cons a t ih =>
    cases hfa : f a <;>
      simp [List.filterMap_cons, hfa, List.countP_cons, ih]

/-- A path no file occupies is returned unchanged by `rename_if_exists`. -/
theorem rename_if_exists_of_not_exists (ex : String → Bool) (p : String)
    (h : ex p = false) : rename_if_exists ex p = p := by
  simp [rename_if_exists, h]

/-- Unfolding one loop iteration of `renameGo`. -/
theorem renameGo_succ (ex : String → Bool) (d b e : String) (i fuel : Nat) :
    renameGo ex d b e i (fuel + 1) =
      if ex (renameCandidate d b e i) = true then
        if fuel = 0 then renameCandidate d b e i else renameGo ex d b e (i + 1) fuel
      else renameCandidate d b e i := rfl

/-- `renameGo` returns the first free candidate within its range. -/
theorem renameGo_least (ex : String → Bool) (d b e : String) :
    ∀ fuel i j, i ≤ j → j < i + fuel →
      (∀ k, i ≤ k → k < j → ex (renameCandidate d b e k) = true) →
      ex (renameCandidate d b e j) = false →
      renameGo ex d b e i fuel = renameCandidate d b e j := by
  intro fuel
  induction fuel with
  | zero => intro i j h1 h2 _ _; omega
  | succ f ih =>
    intro i j h1 h2 hall hfree
    rw [renameGo_succ]
    by_cases hi : ex (renameCandidate d b e i) = true
    · have hij : i < j := by
        rcases Nat.lt_or_ge i j with h | h
        · exact h
        · exfalso
          have hji : j = i := by omega
          rw [hji] at hfree
          rw [hfree] at hi
          exact Bool.false_ne_true hi
      have hf : ¬ (f = 0) := by omega
      rw [if_pos hi, if_neg hf]
      exact ih (i + 1) j (by omega) (by omega)
        (fun k hk1 hk2 => hall k (by omega) hk2) hfree
    · rw [if_neg hi]
      have hji : j = i := by
        rcases Nat.lt_or_ge i j with h | h
        · exact absurd (hall i (Nat.le_refl i) h) hi
        · omega
      rw [hji]

/-- When every candidate in range is taken, `renameGo` returns the last one. -/
theorem renameGo_exhausted (ex : String → Bool) (d b e : String) :
    ∀ fuel i, 1 ≤ fuel →
      (∀ k, i ≤ k → k < i + fuel → ex (renameCandidate d b e k) = true) →
      renameGo ex d b e i fuel = renameCandidate d b e (i + fuel - 1) := by
  intro fuel
  induction fuel with
  | zero => intro i h1 _; omega
  | succ f ih =>
    intro i _ hall
    rw [renameGo_succ]
    have hi : ex (renameCandidate d b e i) = true := hall i (Nat.le_refl i) (by omega)
    rw [if_pos hi]
    by_cases hf : f = 0
    · rw [if_pos hf]
      subst hf
      congr 1
    · rw [if_neg hf]
      have hrec := ih (i + 1) (by omega) (fun k hk1 hk2 => hall k (by omega) (by omega))
      rw [hrec]
      congr 1
      omega

/-- A list is a prefix of itself followed by anything, in the `Bool` sense. -/
theorem isPrefixOf_self_append (l t : List Char) : l.isPrefixOf (l ++ t) = true := by
  induction l with
  | nil => simp
  | cons c cs ih => simp [List.isPrefixOf, ih]

/-- The needle is found in any haystack that contains it between two parts. -/
theorem containsSubstringAux_append (s : List Char) :
    ∀ pre post : List Char, containsSubstringAux s (pre ++ (s ++ post)) = true := by
  intro pre
  induction pre with
  | nil =>
    intro post
    cases s with
    | nil =>
      cases post with
      | nil => rfl
      | cons c cs => simp [containsSubstringAux]
    | cons c cs =>
      simp only [List.nil_append, List.cons_append, containsSubstringAux]
      rw [Bool.or_eq_true]
      left
      exact isPrefixOf_self_append (c :: cs) post
  | cons c pre ih =>
    intro post
    simp only [List.cons_append, containsSubstringAux]
    rw [Bool.or_eq_true]
    right
    exact ih post

/-! ## Concrete task runners used by witnesses -/

/-- A concrete task runner whose tasks fail exactly on URLs containing
`raise`, mirroring `test_download_manager`. -/
def mixedRun : String → TaskOutcome := fun u =>
  if containsSubstring u "raise" then ⟨Except.error (DlError.httpError 500 u), []⟩
  else ⟨Except.ok "f.jpg", []⟩

/-- A concrete task runner whose tasks all succeed. -/
def allOkRun : String → TaskOutcome := fun _ => ⟨Except.ok "f.jpg", []⟩

/-! ## Claim theorems -/

/-- C1: whenever `download_manager` returns a `DownloadStats`, it satisfies
`success + failed = total`, `total` is the number of non-empty
whitespace-trimmed input lines, `failed` counts the tasks whose outcome was
an error, and `success = total - failed`. -/
theorem download_manager_stats_invariant
    (isdir : String → Bool) (out_dir : String) (lines : List String)
    (max_workers : Option Int) (run : String → TaskOutcome) (s : DownloadStats)
    (h : (download_manager isdir out_dir lines max_workers run).stats = Except.ok s) :
    s.success + s.failed = s.total ∧
    s.total = (stripNonEmptyLines lines).length ∧
    s.failed = ((stripNonEmptyLines lines).map run).countP
      (fun o => (exceptError o.result).isSome) ∧
    s.success = s.total - s.failed := by
  unfold download_manager at h
  by_cases hd : isdir out_dir = false
  · rw [if_pos hd] at h
    simp at h
  · rw [if_neg hd] at h
    cases he : threadPoolExecutorInit max_workers with
    | error m =>
      rw [he] at h
      simp at h
    | ok u =>
      rw [he] at h
      simp only [Except.ok.injEq] at h
      subst h
      refine ⟨?_, rfl, ?_, rfl⟩
      · have hle : (((stripNonEmptyLines lines).map run).filterMap
            (fun o => exceptError o.result)).length ≤
            ((stripNonEmptyLines lines).map run).length :=
          List.length_filterMap_le _ _
        have hml : ((stripNonEmptyLines lines).map run).length =
            (stripNonEmptyLines lines).length := List.length_map _ _
        show (stripNonEmptyLines lines).length -
            (((stripNonEmptyLines lines).map run).filterMap
              (fun o => exceptError o.result)).length +
            (((stripNonEmptyLines lines).map run).filterMap
              (fun o => exceptError o.result)).length =
            (stripNonEmptyLines lines).length
        omega
      · exact length_filterMap_eq_countP _ _

/-- Witness for C1: two scheduled tasks, one failing, give stats `(1, 1, 2)`
satisfying every conjunct. -/
theorem download_manager_stats_invariant_witness :
    (download_manager (fun _ => true) "out" [" a ", "", " raise-x", " "] none
        mixedRun).stats = Except.ok ⟨1, 1, 2⟩ ∧
    ((1 : Nat) + 1 = 2 ∧
      (2 : Nat) = (stripNonEmptyLines [" a ", "", " raise-x", " "]).length ∧
      (1 : Nat) = ((stripNonEmptyLines [" a ", "", " raise-x", " "]).map mixedRun).countP
        (fun o => (exceptError o.result).isSome) ∧
      (1 : Nat) = 2 - 1) :=
  ⟨by decide,
   download_manager_stats_invariant (fun _ => true) "out" [" a ", "", " raise-x", " "]
     none mixedRun ⟨1, 1, 2⟩ (by decide)⟩

/-- C2: with a valid output directory and an accepted `max_workers`, every
scheduled task runs, each failure is logged and counted into `failed`, and
`download_manager` returns statistics normally instead of propagating any
per-task error. -/
theorem download_manager_absorbs_task_errors
    (isdir : String → Bool) (out_dir : String) (lines : List String)
    (max_workers : Option Int) (run : String → TaskOutcome)
    (hd : isdir out_dir = true)
    (hw : threadPoolExecutorInit max_workers = Except.ok ()) :
    (∃ s, (download_manager isdir out_dir lines max_workers run).stats = Except.ok s ∧
      s.failed = (download_manager isdir out_dir lines max_workers run).logged.length) ∧
    (download_manager isdir out_dir lines max_workers run).attempted =
      stripNonEmptyLines lines ∧
    (download_manager isdir out_dir lines max_workers run).logged =
      ((stripNonEmptyLines lines).map run).filterMap (fun o => exceptError o.result) := by
  unfold download_manager
  rw [hd, hw]
  exact ⟨⟨_, rfl, rfl⟩, rfl, rfl⟩

/-- Witness for C2: five scheduled tasks of which two fail; the manager
returns normally, attempts all five, and logs exactly the two errors. -/
theorem download_manager_absorbs_task_errors_witness :
    (fun _ : String => true) "out" = true ∧
    threadPoolExecutorInit (some 2) = Except.ok () ∧
    ((∃ s, (download_manager (fun _ => true) "out"
        ["", " s1 ", " s2", "", " raise1", " raise2", " s3", "  "] (some 2)
        mixedRun).stats = Except.ok s ∧
      s.failed = (download_manager (fun _ => true) "out"
        ["", " s1 ", " s2", "", " raise1", " raise2", " s3", "  "] (some 2)
        mixedRun).logged.length) ∧
    (download_manager (fun _ => true) "out"
        ["", " s1 ", " s2", "", " raise1", " raise2", " s3", "  "] (some 2)
        mixedRun).attempted =
      stripNonEmptyLines ["", " s1 ", " s2", "", " raise1", " raise2", " s3", "  "] ∧
    (download_manager (fun _ => true) "out"
        ["", " s1 ", " s2", "", " raise1", " raise2", " s3", "  "] (some 2)
        mixedRun).logged =
      ((stripNonEmptyLines ["", " s1 ", " s2", "", " raise1", " raise2", " s3", "  "]).map
        mixedRun).filterMap (fun o => exceptError o.result)) :=
  ⟨rfl, rfl,
   download_manager_absorbs_task_errors (fun _ => true) "out"
     ["", " s1 ", " s2", "", " raise1", " raise2", " s3", "  "] (some 2) mixedRun rfl rfl⟩

/-- C9: an `out_dir` that is not an existing directory makes
`download_manager` fail with the configuration error before anything happens:
no task is attempted, nothing is logged, and no side effect occurs. -/
theorem download_manager_invalid_outdir_fail_fast
    (isdir : String → Bool) (out_dir : String) (lines : List String)
    (max_workers : Option Int) (run : String → TaskOutcome)
    (hd : isdir out_dir = false) :
    download_manager isdir out_dir lines max_workers run =
      ⟨Except.error (ManagerError.invalidOutputDir out_dir), [], [], []⟩ := by
  unfold download_manager
  rw [if_pos hd]

/-- Witness for C9 at a concrete invalid directory. -/
theorem download_manager_invalid_outdir_fail_fast_witness :
    (fun _ : String => false) "missing" = false ∧
    download_manager (fun _ => false) "missing" ["http a", "http b"] none allOkRun =
      ⟨Except.error (ManagerError.invalidOutputDir "missing"), [], [], []⟩ :=
  ⟨rfl,
   download_manager_invalid_outdir_fail_fast (fun _ => false) "missing"
     ["http a", "http b"] none allOkRun rfl⟩

/-- C7 (amended): an absent `max_workers` resolves to the executor default and
the manager proceeds to schedule and run the tasks normally; an explicit
non-positive value, by contrast, is rejected by `ThreadPoolExecutor` (see the
counterexample below). -/
theorem download_manager_none_workers_proceeds
    (isdir : String → Bool) (out_dir : String) (lines : List String)
    (run : String → TaskOutcome) (hd : isdir out_dir = true) :
    ∃ s, (download_manager isdir out_dir lines none run).stats = Except.ok s ∧
      (download_manager isdir out_dir lines none run).attempted =
        stripNonEmptyLines lines := by
  unfold download_manager
  rw [hd]
  exact ⟨_, rfl, rfl⟩

/-- Witness for the amended C7 at a concrete input. -/
theorem download_manager_none_workers_proceeds_witness :
    (fun _ : String => true) "out" = true ∧
    (∃ s, (download_manager (fun _ => true) "out" ["u1", "u2"] none allOkRun).stats =
        Except.ok s ∧
      (download_manager (fun _ => true) "out" ["u1", "u2"] none allOkRun).attempted =
        stripNonEmptyLines ["u1", "u2"]) :=
  ⟨rfl,
   download_manager_none_workers_proceeds (fun _ => true) "out" ["u1", "u2"] allOkRun rfl⟩

/-- Counterexample to C7 as stated: with the non-positive value
`max_workers = 0` and a perfectly valid directory and input,
`download_manager` does fail — the executor's `ValueError` propagates and no
task is attempted, instead of the value being replaced by a sane default. -/
theorem download_manager_zero_workers_raises :
    (download_manager (fun _ => true) "out" ["http x"] (some 0) allOkRun).stats =
      Except.error (ManagerError.executorValueError "max_workers must be greater than 0") ∧
    (download_manager (fun _ => true) "out" ["http x"] (some 0) allOkRun).attempted = [] := by
  decide

/-- C6: `get_session` never returns the session it created on the previous
call of the same thread — the `threading.local()` object is constructed
inside the function body, so each call allocates a brand-new session.  The
code contradicts its own docstring, which promises a reusable thread-local
session. -/
theorem get_session_allocates_every_call (n : Nat) :
    (get_session ((get_session n).2)).1 ≠ (get_session n).1 ∧
    (get_session n).1 = n ∧ (get_session ((get_session n).2)).1 = n + 1 := by
  simp [get_session]

/-- Substring search still succeeds after prepending any part. -/
theorem containsSubstringAux_mono (s : List Char) (l t : List Char)
    (h : containsSubstringAux s t = true) :
    containsSubstringAux s (l ++ t) = true := by
  induction l with
  | nil => exact h
  | cons c cs ih =>
    simp only [List.cons_append, containsSubstringAux]
    rw [Bool.or_eq_true]
    right
    exact ih

/-- The needle is found at the front of any haystack it starts. -/
theorem containsSubstringAux_self (s post : List Char) :
    containsSubstringAux s (s ++ post) = true :=
  containsSubstringAux_append s [] post

/-- A list all of whose characters satisfy a predicate does not contain a
character that falsifies it. -/
theorem contains_eq_false_of_all (p : Char → Bool) (c : Char) (hc : p c = false) :
    ∀ l : List Char, l.all p = true → l.contains c = false := by
  intro l
  induction l with
  | nil => intro _; rfl
  | cons a as ih =>
    intro h
    rw [List.all_cons, Bool.and_eq_true] at h
    rw [List.contains_cons, Bool.or_eq_false_iff]
    refine ⟨?_, ih h.2⟩
    rw [beq_eq_false_iff_ne]
    intro hca
    rw [hca, h.1] at hc
    exact Bool.noConfusion hc

/-- A string of verbatim characters gets single quotes from repr. -/
theorem reprQuote_of_verbatim (s : String) (h : s.data.all reprVerbatimChar = true) :
    reprQuote s = '\x27' := by
  unfold reprQuote
  rw [if_neg]
  intro hcond
  have hq : s.data.contains '\x27' = false :=
    contains_eq_false_of_all reprVerbatimChar '\x27' (by decide) s.data h
  rw [hq] at hcond
  exact Bool.false_ne_true hcond.1

/-- Verbatim characters pass through repr escaping unchanged. -/
theorem reprEscape_verbatim :
    ∀ l : List Char, l.all reprVerbatimChar = true →
      (l.map (reprEscapeChar '\x27')).flatten = l := by
  intro l
  induction l with
  | nil => intro _; rfl
  | cons c cs ih =>
    intro h
    rw [List.all_cons, Bool.and_eq_true] at h
    obtain ⟨h1, h2, h3, h4⟩ := of_decide_eq_true h.1
    have hc : reprEscapeChar '\x27' c = [c] := by
      unfold reprEscapeChar
      rw [if_neg h3, if_neg h4,
        if_neg (fun hcc => absurd (hcc ▸ h1) (by decide)),
        if_neg (fun hcc => absurd (hcc ▸ h1) (by decide)),
        if_neg (fun hcc => absurd (hcc ▸ h1) (by decide)),
        if_neg (by omega)]
    rw [List.map_cons, List.flatten_cons, hc, ih h.2]
    rfl

/-- Over verbatim characters, repr is just the string between single quotes. -/
theorem pyRepr_verbatim (s : String) (h : s.data.all reprVerbatimChar = true) :
    (pyRepr s).data = '\x27' :: (s.data ++ ['\x27']) := by
  unfold pyRepr
  rw [reprQuote_of_verbatim s h, reprEscape_verbatim s.data h]

/-- The message of line 75 contains the declared content type verbatim when
repr renders every one of its characters verbatim. -/
theorem invalid_type_message_contains (ct url : String)
    (h : ct.data.all reprVerbatimChar = true) :
    containsSubstring (errorMessage (DlError.invalidImageType ct url)) ct = true := by
  unfold containsSubstring errorMessage
  have hd : ("Invalid image type " ++ pyRepr ct ++ " from " ++ pyRepr url).data =
      "Invalid image type ".data ++
        ('\x27' :: (ct.data ++ (['\x27'] ++ (" from ".data ++ (pyRepr url).data)))) := by
    rw [String.data_append, String.data_append, String.data_append, pyRepr_verbatim ct h]
    simp [List.append_assoc]
  rw [hd]
  apply containsSubstringAux_mono
  exact containsSubstringAux_mono _ ['\x27'] _ (containsSubstringAux_self _ _)

/-- C8 (amended): a declared content type whose primary type is not `image`
or whose subtype is empty makes `download_image` fail with the
invalid-image-type error, closing the response first, and no file is
written; the error message contains the declared content type verbatim
whenever the declared type consists of printable ASCII without backslashes
or single quotes — characters that `repr` escapes appear escaped in the
message instead (see the counterexample below). -/
theorem download_image_invalid_content_type
    (ex : String → Bool) (out_dir : String) (r : Response)
    (hs : ¬ (400 ≤ r.status ∧ r.status < 600))
    (hct : (partitionFirst '/' (declaredContentType r)).1 ≠ "image" ∨
      (partitionFirst '/' (declaredContentType r)).2 = "") :
    download_image ex out_dir r =
      (Except.error (DlError.invalidImageType (declaredContentType r) r.url),
       [Effect.closedResponse]) ∧
    (∀ p, Effect.wroteFile p ∉ (download_image ex out_dir r).2) ∧
    ((declaredContentType r).data.all reprVerbatimChar = true →
      containsSubstring
        (errorMessage (DlError.invalidImageType (declaredContentType r) r.url))
        (declaredContentType r) = true) := by
  have h1 : download_image ex out_dir r =
      (Except.error (DlError.invalidImageType (declaredContentType r) r.url),
       [Effect.closedResponse]) := by
    unfold download_image
    rw [if_neg hs, if_pos hct]
  refine ⟨h1, ?_, ?_⟩
  · intro p
    rw [h1]
    simp
  · intro hplain
    exact invalid_type_message_contains (declaredContentType r) r.url hplain

/-- Witness for the amended C8: a `text/plain` response is rejected with only
the close effect and the declared type verbatim inside the message. -/
theorem download_image_invalid_content_type_witness :
    ¬ (400 ≤ (200 : Nat) ∧ (200 : Nat) < 600) ∧
    ("text/plain".data.all reprVerbatimChar = true) ∧
    (download_image (fun _ => false) "out"
        ⟨"http://x/f.jpg", 200, some "text/plain", none⟩ =
      (Except.error (DlError.invalidImageType "text/plain" "http://x/f.jpg"),
       [Effect.closedResponse]) ∧
    (∀ p, Effect.wroteFile p ∉
      (download_image (fun _ => false) "out"
        ⟨"http://x/f.jpg", 200, some "text/plain", none⟩).2) ∧
    containsSubstring
      (errorMessage (DlError.invalidImageType "text/plain" "http://x/f.jpg"))
      "text/plain" = true) :=
  ⟨by decide, by decide,
   let h := download_image_invalid_content_type (fun _ => false) "out"
     ⟨"http://x/f.jpg", 200, some "text/plain", none⟩ (by decide) (by decide)
   ⟨h.1, h.2.1, h.2.2 (by decide)⟩⟩

/-- Counterexample to C8 as stated: a declared content type containing a
backslash is escaped by the `!r` format of line 75, so the resulting message
does not contain the declared type verbatim, even though the task does fail
with the invalid-image-type error, closes the response, and writes nothing. -/
theorem download_image_backslash_type_counterexample :
    download_image (fun _ => false) "out" ⟨"u", 200, some "te\\xt/plain", none⟩ =
      (Except.error (DlError.invalidImageType "te\\xt/plain" "u"),
       [Effect.closedResponse]) ∧
    containsSubstring (errorMessage (DlError.invalidImageType "te\\xt/plain" "u"))
      "te\\xt/plain" = false := by
  decide

/-- C10: a response with no `Content-Type` header at all is treated as having
the empty declared content type and rejected exactly like any non-image
response, with no file written. -/
theorem download_image_missing_content_type
    (ex : String → Bool) (out_dir : String) (r : Response)
    (hs : ¬ (400 ≤ r.status ∧ r.status < 600))
    (hh : r.contentTypeHeader = none) :
    declaredContentType r = "" ∧
    download_image ex out_dir r =
      (Except.error (DlError.invalidImageType "" r.url), [Effect.closedResponse]) ∧
    ∀ p, Effect.wroteFile p ∉ (download_image ex out_dir r).2 := by
  have hct : declaredContentType r = "" := by
    unfold declaredContentType
    rw [hh]
    rfl
  have hcond : (partitionFirst '/' ("" : String)).1 ≠ "image" ∨
      (partitionFirst '/' ("" : String)).2 = "" := by decide
  have h1 : download_image ex out_dir r =
      (Except.error (DlError.invalidImageType "" r.url), [Effect.closedResponse]) := by
    unfold download_image
    rw [if_neg hs, hct, if_pos hcond]
  refine ⟨hct, h1, ?_⟩
  intro p
  rw [h1]
  simp

/-- Witness for C10 at a concrete header-less response. -/
theorem download_image_missing_content_type_witness :
    ¬ (400 ≤ (200 : Nat) ∧ (200 : Nat) < 600) ∧
    (declaredContentType ⟨"http://x/f", 200, none, none⟩ = "" ∧
    download_image (fun _ => false) "out" ⟨"http://x/f", 200, none, none⟩ =
      (Except.error (DlError.invalidImageType "" "http://x/f"), [Effect.closedResponse]) ∧
    ∀ p, Effect.wroteFile p ∉
      (download_image (fun _ => false) "out" ⟨"http://x/f", 200, none, none⟩).2) :=
  ⟨by decide,
   download_image_missing_content_type (fun _ => false) "out"
     ⟨"http://x/f", 200, none, none⟩ (by decide) rfl⟩

/-- C5 (amended): a successful `download_image` returns the sanitized derived
filename of line 79 *before* collision renaming; the body is written to the
collision-resolved path, and the returned name equals the written path's last
component only when no collision renaming occurred (in particular whenever
the target path was free). -/
theorem download_image_returns_unrenamed_filename
    (ex : String → Bool) (out_dir : String) (r : Response) (dr : DownloadResult)
    (h : (download_image ex out_dir r).1 = Except.ok dr) :
    (∃ f0, get_filename r.url r.dispositionParse
        (partitionFirst '/' (declaredContentType r)).2 = Except.ok f0 ∧
      dr.filename = sanitize_filename f0 "_") ∧
    dr.written = rename_if_exists ex (pathJoin out_dir dr.filename) ∧
    (download_image ex out_dir r).2 = [Effect.wroteFile dr.written] ∧
    (ex (pathJoin out_dir dr.filename) = false →
      dr.written = pathJoin out_dir dr.filename) := by
  unfold download_image at h ⊢
  by_cases hs : 400 ≤ r.status ∧ r.status < 600
  · rw [if_pos hs] at h
    simp at h
  · rw [if_neg hs] at h ⊢
    by_cases hct : (partitionFirst '/' (declaredContentType r)).1 ≠ "image" ∨
        (partitionFirst '/' (declaredContentType r)).2 = ""
    · rw [if_pos hct] at h
      simp at h
    · rw [if_neg hct] at h ⊢
      cases hgf : get_filename r.url r.dispositionParse
          (partitionFirst '/' (declaredContentType r)).2 with
      | error e =>
        rw [hgf] at h
        simp at h
      | ok f0 =>
        rw [hgf] at h
        have h2 : Except.ok (DownloadResult.mk (sanitize_filename f0 "_")
            (rename_if_exists ex (pathJoin out_dir (sanitize_filename f0 "_")))) =
            Except.ok dr := h
        have h3 := Except.ok.inj h2
        subst h3
        exact ⟨⟨f0, rfl, rfl⟩, rfl, rfl,
          fun hfree => rename_if_exists_of_not_exists ex _ hfree⟩

/-- Witness for the amended C5: a collision-free download returns exactly the
name it wrote. -/
theorem download_image_returns_unrenamed_filename_witness :
    (download_image (fun _ => false) "out"
        ⟨"http://x/a.png", 200, some "image/png", some (some "a.png")⟩).1 =
      Except.ok ⟨"a.png", "out/a.png"⟩ ∧
    ((∃ f0, get_filename "http://x/a.png" (some (some "a.png"))
        (partitionFirst '/' (declaredContentType
          ⟨"http://x/a.png", 200, some "image/png", some (some "a.png")⟩)).2 =
          Except.ok f0 ∧
      (DownloadResult.mk "a.png" "out/a.png").filename = sanitize_filename f0 "_") ∧
    (DownloadResult.mk "a.png" "out/a.png").written =
      rename_if_exists (fun _ => false) (pathJoin "out" "a.png") ∧
    (download_image (fun _ => false) "out"
        ⟨"http://x/a.png", 200, some "image/png", some (some "a.png")⟩).2 =
      [Effect.wroteFile "out/a.png"] ∧
    ((fun _ : String => false) (pathJoin "out" "a.png") = false →
      (DownloadResult.mk "a.png" "out/a.png").written = pathJoin "out" "a.png")) :=
  ⟨by decide,
   download_image_returns_unrenamed_filename (fun _ => false) "out"
     ⟨"http://x/a.png", 200, some "image/png", some (some "a.png")⟩
     ⟨"a.png", "out/a.png"⟩ (by decide)⟩

/-- Counterexample to C5 as stated: when the target name is taken, the body is
written to the suffixed path `out/foobar_1.jpg` but `download_image` still
returns `foobar.jpg`, which is not the last component of the path actually
written. -/
theorem download_image_collision_returns_stale_name :
    download_image (fun p => p == "out/foobar.jpg") "out"
        ⟨"http://abc.de/bla/foobar.jpg", 200, some "image/jpg", some (some "foobar.jpg")⟩ =
      (Except.ok ⟨"foobar.jpg", "out/foobar_1.jpg"⟩,
       [Effect.wroteFile "out/foobar_1.jpg"]) ∧
    ¬ ("foobar.jpg" = basename "out/foobar_1.jpg") := by
  decide

/-- The claim's notion of extension equivalence, written from the spec's
words: `jpg` and `jpeg` are mutually interchangeable aliases,
case-insensitively.  Two extensions are equivalent when they agree after
lowercasing and collapsing `jpeg` to `jpg`. -/
def specCaseInsensitiveAliasEquiv (a b : String) : Bool :=
  pyReplace (pyLower a) "jpeg" "jpg" == pyReplace (pyLower b) "jpeg" "jpg"

/-- C4 (amended): the parsed extension is kept exactly when the declared
subtype, compared *case-sensitively as written*, is one of the three alias
spellings derived from the lowercased parsed extension; any other subtype —
including an uppercase spelling of an otherwise matching alias — is forced,
with `filename_sanitized` appending it when the parsed name does not already
end with it. -/
theorem get_filename_alias_extension
    (url rawFilename expected_extension : String) :
    ([pyLower (afterLastSep '.' rawFilename),
      pyReplace (pyLower (afterLastSep '.' rawFilename)) "jpeg" "jpg",
      pyReplace (pyLower (afterLastSep '.' rawFilename)) "jpg" "jpeg"].contains
        expected_extension = true →
      get_filename url (some (some rawFilename)) expected_extension =
        Except.ok (filename_sanitized (some rawFilename)
          (afterLastSep '.' rawFilename))) ∧
    ([pyLower (afterLastSep '.' rawFilename),
      pyReplace (pyLower (afterLastSep '.' rawFilename)) "jpeg" "jpg",
      pyReplace (pyLower (afterLastSep '.' rawFilename)) "jpg" "jpeg"].contains
        expected_extension = false →
      get_filename url (some (some rawFilename)) expected_extension =
        Except.ok (filename_sanitized (some rawFilename) expected_extension)) := by
  constructor <;> intro h
  · simp only [get_filename]
    rw [if_pos h]
  · simp only [get_filename]
    rw [if_neg (fun hc => Bool.false_ne_true (h ▸ hc))]

/-- Witness for the amended C4 at the alias match `jpeg`/`jpg` and the forced
case `bmp`, reproducing the test table of the repository. -/
theorem get_filename_alias_extension_witness :
    ([pyLower (afterLastSep '.' "foobar.jpeg"),
      pyReplace (pyLower (afterLastSep '.' "foobar.jpeg")) "jpeg" "jpg",
      pyReplace (pyLower (afterLastSep '.' "foobar.jpeg")) "jpg" "jpeg"].contains "jpg" = true ∧
     get_filename "u" (some (some "foobar.jpeg")) "jpg" =
       Except.ok (filename_sanitized (some "foobar.jpeg") (afterLastSep '.' "foobar.jpeg"))) ∧
    ([pyLower (afterLastSep '.' "foobar.jpg"),
      pyReplace (pyLower (afterLastSep '.' "foobar.jpg")) "jpeg" "jpg",
      pyReplace (pyLower (afterLastSep '.' "foobar.jpg")) "jpg" "jpeg"].contains "bmp" = false ∧
     get_filename "u" (some (some "foobar.jpg")) "bmp" =
       Except.ok (filename_sanitized (some "foobar.jpg") "bmp")) ∧
    filename_sanitized (some "foobar.jpeg") (afterLastSep '.' "foobar.jpeg") = "foobar.jpeg" ∧
    filename_sanitized (some "foobar.jpg") "bmp" = "foobar.jpg.bmp" :=
  ⟨⟨by decide, (get_filename_alias_extension "u" "foobar.jpeg" "jpg").1 (by decide)⟩,
   ⟨by decide, (get_filename_alias_extension "u" "foobar.jpg" "bmp").2 (by decide)⟩,
   by decide, by decide⟩

/-- Counterexample to C4 as stated: `jpeg` and `JPG` are case-insensitive
alias-equivalents, yet with declared subtype `JPG` and parsed filename
`photo.jpeg` the code forces the expected extension and produces
`photo.jpeg.JPG` instead of keeping the parsed extension. -/
theorem get_filename_uppercase_subtype_counterexample :
    specCaseInsensitiveAliasEquiv "jpeg" "JPG" = true ∧
    get_filename "u" (some (some "photo.jpeg")) "JPG" = Except.ok "photo.jpeg.JPG" ∧
    ¬ (get_filename "u" (some (some "photo.jpeg")) "JPG" = Except.ok "photo.jpeg") := by
  decide

/-- A concrete filesystem for the C3 witness: `out/test.jpg` and
`out/test_1.jpg` exist. -/
def testFsBoth : String → Bool := fun p =>
  p == "out/test.jpg" || p == "out/test_1.jpg"

/-- C3: `rename_if_exists` returns a free path unchanged; for an occupied
path it returns the candidate with the smallest free index, where candidate
`i` inserts `_i` between the basename (up to its last dot) and the extension;
only indices 1 through 9999 are tried, and when every one of them is taken
the last attempted name — candidate 9999 — is returned without error. -/
theorem rename_if_exists_spec (ex : String → Bool) (p : String) :
    (ex p = false → rename_if_exists ex p = p) ∧
    (∀ j, ex p = true → 1 ≤ j → j ≤ 9999 →
      (∀ k, 1 ≤ k → k < j →
        ex (renameCandidate (dirname p) (pyRpartition '.' (basename p)).1
          (pyRpartition '.' (basename p)).2 k) = true) →
      ex (renameCandidate (dirname p) (pyRpartition '.' (basename p)).1
        (pyRpartition '.' (basename p)).2 j) = false →
      rename_if_exists ex p =
        renameCandidate (dirname p) (pyRpartition '.' (basename p)).1
          (pyRpartition '.' (basename p)).2 j) ∧
    (ex p = true →
      (∀ k, 1 ≤ k → k ≤ 9999 →
        ex (renameCandidate (dirname p) (pyRpartition '.' (basename p)).1
          (pyRpartition '.' (basename p)).2 k) = true) →
      rename_if_exists ex p =
        renameCandidate (dirname p) (pyRpartition '.' (basename p)).1
          (pyRpartition '.' (basename p)).2 9999) := by
  refine ⟨fun h => rename_if_exists_of_not_exists ex p h, ?_, ?_⟩
  · intro j hex h1 h9999 hall hfree
    unfold rename_if_exists
    rw [if_neg (by intro hc; rw [hex] at hc; simp at hc)]
    exact renameGo_least ex (dirname p) (pyRpartition '.' (basename p)).1
      (pyRpartition '.' (basename p)).2 9999 1 j h1 (by omega) hall hfree
  · intro hex hall
    unfold rename_if_exists
    rw [if_neg (by intro hc; rw [hex] at hc; simp at hc)]
    have hrec := renameGo_exhausted ex (dirname p) (pyRpartition '.' (basename p)).1
      (pyRpartition '.' (basename p)).2 9999 1 (by omega)
      (fun k hk1 hk2 => hall k hk1 (by omega))
    rw [hrec]

/-- Witness for C3: with `test.jpg` and `test_1.jpg` both present, resolving
`out/test.jpg` yields candidate 2, which is `out/test_2.jpg`. -/
theorem rename_if_exists_spec_witness :
    testFsBoth "out/test.jpg" = true ∧
    rename_if_exists testFsBoth "out/test.jpg" =
      renameCandidate (dirname "out/test.jpg")
        (pyRpartition '.' (basename "out/test.jpg")).1
        (pyRpartition '.' (basename "out/test.jpg")).2 2 ∧
    renameCandidate (dirname "out/test.jpg")
      (pyRpartition '.' (basename "out/test.jpg")).1
      (pyRpartition '.' (basename "out/test.jpg")).2 2 = "out/test_2.jpg" :=
  ⟨by decide,
   (rename_if_exists_spec testFsBoth "out/test.jpg").2.1 2 (by decide) (by omega)
     (by omega)
     (fun k hk1 hk2 => by
       have hk : k = 1 := by omega
       subst hk
       decide)
     (by decide),
   by decide⟩
